import Mathlib

/-!
Shallow embedding of the check50 grading harness (src/check50.py) and proofs
about its check-dependency execution model, its process-output expectation
logic, its valgrind report deduplication, and its diagnostic rendering.
-/

set_option maxRecDepth 4000

namespace Check50

/-- The single-quote character (code point 39), kept as a named constant. -/
def squote : Char := Char.ofNat 39

/-- The double-quote character (code point 34), kept as a named constant. -/
def dquote : Char := Char.ofNat 34

/-! ## Verdict encoding (class Checks, lines 610-613)

Python encodes verdicts as `PASS = True`, `FAIL = False`, `SKIP = None`.
The honest embedding of this three-valued encoding is `Option Bool`,
with `none` playing the role of Python `None`. -/

/-- Checks.PASS (line 611): the Python value `True`. -/
def Checks.PASS : Option Bool := some true

/-- Checks.FAIL (line 612): the Python value `False`. -/
def Checks.FAIL : Option Bool := some false

/-- Checks.SKIP (line 613): the Python value `None`. -/
def Checks.SKIP : Option Bool := none

/-! ## Python dict operations for `config.test_results`

`config.test_results` is a Python dict mapping check names to verdict values
(`True`/`False`/`None`).  `dict.get(k)` returns the stored value when the key
is present and `None` when it is missing. -/

/-- Python `d.get(k)` on the results dict: the stored value when present,
Python `None` (here `none`) when the key is missing. -/
def pyDictGet (d : List (String × Option Bool)) (k : String) : Option Bool :=
  match d.find? (fun p => p.1 == k) with
  | none => none
  | some p => p.2

/-- Python `d[k] = v` on the results dict: replace the binding when the key
is present, append it otherwise. -/
def pyDictSet (d : List (String × Option Bool)) (k : String) (v : Option Bool) :
    List (String × Option Bool) :=
  if d.any (fun p => p.1 == k) then
    d.map (fun p => if p.1 == k then (k, v) else p)
  else
    d ++ [(k, v)]

/-! ## Diagnostic values (class Mismatch, class Error) -/

/-- A value that can appear as the `expected`/`actual` field of a Mismatch or
be passed to `Mismatch.raw`: a plain string, the pexpect `EOF` sentinel, or a
list of strings (lines 769-773). -/
inductive MVal
  | str (s : String)
  | eofSentinel
  | strList (l : List String)
deriving DecidableEq, Repr

/-- Class Mismatch (lines 752-756): expected output did not match actual
output. -/
structure Mismatch where
  expected : MVal
  actual : MVal
deriving DecidableEq, Repr

/-- The rationale carried by an `Error`: either a plain message string or a
`Mismatch` value. -/
inductive Rationale
  | msg (s : String)
  | mm (m : Mismatch)
deriving DecidableEq, Repr

/-- Class Error (lines 783-788): the exception used by checks, carrying a
rationale, optional helpers, and the requested verdict (default
`Checks.FAIL`). -/
structure ErrorV where
  rationale : Option Rationale
  helpers : Option String
  result : Option Bool
deriving DecidableEq, Repr

/-- Raising `Error(x)` with the default keyword arguments
(`helpers=None`, `result=Checks.FAIL`). -/
def mkError (r : Rationale) : ErrorV :=
  { rationale := some r, helpers := none, result := Checks.FAIL }

/-! ## The check decorator (lines 416-454) -/

/-- Registration of a check (line 420): the decorator unconditionally appends
the function name to `config.test_cases`, in order of declaration.  There is
no validation of any kind on `name` in the source. -/
def declareCheck (test_cases : List String) (name : String) : List String :=
  test_cases ++ [name]

/-- What the body of a check does when executed: completes normally, raises
an `Error` (caught at line 443), or raises some other exception (uncaught by
the wrapper; it propagates to `TestResult.addError`, which aborts the run). -/
inductive BodyOutcome
  | ok
  | err (e : ErrorV)
  | uncaught (msg : String)
deriving DecidableEq, Repr

/-- The rationale string set on the skip path (line 429). -/
def frownRationale : String :=
  "can" ++ squote.toString ++ "t check until a frown turns upside down"

/-- Python truthiness of the `dependency` argument (a string or `None`):
truthy iff it is a non-empty string. -/
def pyTruthyStr : Option String → Bool
  | none => false
  | some s => !(s == "")

/-- The observable result of running one check: `result` is the verdict
stored in `self.result`, `rationale`/`helpers` mirror the same-named
attributes (both initialized to `None` in `Checks.__init__`, lines 627-629),
and `bodyRan` records whether the check function body was invoked. -/
structure CheckRecord where
  name : String
  result : Option Bool
  rationale : Option Rationale
  helpers : Option String
  bodyRan : Bool
deriving DecidableEq, Repr

/-- The global run state threaded through checks: `results` is
`config.test_results`, and `copies` records every `shutil.copytree` call made
at line 436 as a (source directory name, destination directory name) pair. -/
structure RunState where
  results : List (String × Option Bool)
  copies : List (String × String)
deriving DecidableEq, Repr

/-- The wrapper produced by the `check` decorator (lines 421-451), for one
check named `name` with the given declared `dependency`.

* If `dependency` is truthy and `config.test_results.get(dependency)` is not
  `Checks.PASS` (line 427): record `Checks.SKIP` under `name`, set the
  rationale to `frownRationale`, and return without copying any directory and
  without running the body (lines 428-430).
* Otherwise copy `config.tempdir/(dependency or "_")` to the check directory
  (lines 434-436), run the body, catch `Error` (lines 441-447), and record
  the resulting verdict (line 451).  A non-`Error` exception escapes the
  wrapper and aborts the whole run. -/
def runCheck (name : String) (dependency : Option String) (body : BodyOutcome)
    (st : RunState) : Except String (RunState × CheckRecord) :=
  if pyTruthyStr dependency = true ∧
      pyDictGet st.results (dependency.getD "") ≠ Checks.PASS then
    Except.ok
      ({ st with results := pyDictSet st.results name Checks.SKIP },
       { name := name, result := Checks.SKIP,
         rationale := some (Rationale.msg frownRationale),
         helpers := none, bodyRan := false })
  else
    let srcName := if pyTruthyStr dependency = true then dependency.getD "" else "_"
    let st1 : RunState := { st with copies := st.copies ++ [(srcName, name)] }
    match body with
    | BodyOutcome.ok =>
        Except.ok
          ({ st1 with results := pyDictSet st1.results name Checks.PASS },
           { name := name, result := Checks.PASS, rationale := none,
             helpers := none, bodyRan := true })
    | BodyOutcome.err e =>
        Except.ok
          ({ st1 with results := pyDictSet st1.results name e.result },
           { name := name, result := e.result, rationale := e.rationale,
             helpers := e.helpers, bodyRan := true })
    | BodyOutcome.uncaught m => Except.error m

/-- Run a declared list of checks in order, threading `config.test_results`
and stopping the whole run on an uncaught (non-`Error`) exception, as
`TestResult.addError` does (lines 379-392). -/
def runChecks : List (String × Option String × BodyOutcome) → RunState →
    Except String (RunState × List CheckRecord)
  | [], st => Except.ok (st, [])
  | (n, d, b) :: rest, st =>
    match runCheck n d b st with
    | Except.error m => Except.error m
    | Except.ok (st2, rec) =>
        (runChecks rest st2).map (fun p => (p.1, rec :: p.2))

/-! ## Checks.spawn environment handling (lines 670-691) -/

/-- `os.environ.update(env)` (line 682): set each key/value pair of `env`
into the process-global environment, in iteration order.  The global
environment is modeled as a function from variable names to optional
values. -/
def osEnvironUpdate (environ : String → Option String)
    (env : List (String × String)) : String → Option String :=
  env.foldl (fun m kv => fun k => if kv.1 = k then some kv.2 else m k) environ

/-- The last binding of `k` in an association list (later entries win, as in
a Python dict built by successive assignment). -/
def envLookupLast : List (String × String) → String → Option String
  | [], _ => none
  | kv :: tl, k =>
    match envLookupLast tl k with
    | some v => some v
    | none => if kv.1 = k then some kv.2 else none

/-- The environment effect of `Checks.spawn(cmd, env)` (lines 680-691):
`if env is None: env = {}`, then `env = os.environ.update(env)`.
`dict.update` mutates `os.environ` in place and returns `None`, so the local
`env` is rebound to `None`, and that `None` is what is passed as the `env`
keyword argument of `pexpect.spawn` (lines 688/691).  The first component is
the mutated global environment (which persists for the rest of the process);
the second is the value passed to the spawned child. -/
def spawnEnvEffect (environ : String → Option String)
    (env : Option (List (String × String))) :
    (String → Option String) × Option (List (String × String)) :=
  let e := env.getD []
  let environ2 := osEnvironUpdate environ e
  (environ2, none)

/-! ## Python string helpers -/

/-- One step pool for `str.replace`: rewrite occurrences of `pat` by `rep`
left to right, non-overlapping, with explicit fuel (sufficient fuel is the
input length, since each step consumes at least one character when `pat` is
non-empty).  Matches Python `str.replace` semantics for non-empty `pat`. -/
def replaceFuel (pat rep : List Char) : Nat → List Char → List Char
  | _, [] => []
  | 0, l => l
  | n + 1, c :: rest =>
    if pat ≠ [] ∧ pat.isPrefixOf (c :: rest) then
      rep ++ replaceFuel pat rep n ((c :: rest).drop pat.length)
    else
      c :: replaceFuel pat rep n rest

/-- Python `s.replace(pat, rep)` for non-empty `pat`. -/
def pyReplace (s pat rep : String) : String :=
  String.mk (replaceFuel pat.data rep.data s.data.length s.data)

/-- The two-character sequence CR LF. -/
def crlfS : String := "\r\n"

/-- The one-character sequence LF. -/
def lfS : String := "\n"

/-! ## Python repr of strings (used by Mismatch.raw, line 775)

Models CPython `repr` on text strings: pick the quote character (single
quote, unless the string contains a single quote and no double quote, in
which case double quote), escape backslash, the chosen quote, newline,
carriage return and tab, and render other control characters as a
backslash-x hex escape.  Other code points are kept literal. -/

/-- A lowercase hexadecimal digit. -/
def hexDigit (n : Nat) : Char :=
  if n < 10 then Char.ofNat (48 + n) else Char.ofNat (87 + n)

/-- Escape one character of a repr body, given the quote character `q` in
use. -/
def pyEscapeChar (q : Char) (c : Char) : List Char :=
  if c = Char.ofNat 92 then [Char.ofNat 92, Char.ofNat 92]
  else if c = q then [Char.ofNat 92, q]
  else if c = Char.ofNat 10 then [Char.ofNat 92, Char.ofNat 110]
  else if c = Char.ofNat 13 then [Char.ofNat 92, Char.ofNat 114]
  else if c = Char.ofNat 9 then [Char.ofNat 92, Char.ofNat 116]
  else if c.toNat < 32 ∨ c.toNat = 127 then
    [Char.ofNat 92, Char.ofNat 120, hexDigit (c.toNat / 16), hexDigit (c.toNat % 16)]
  else [c]

/-- The quote character CPython repr chooses for `s`. -/
def pyReprQuote (s : String) : Char :=
  if s.data.contains squote && !(s.data.contains dquote) then dquote else squote

/-- The escaped body of `repr(s)` (the text between the quotes). -/
def pyReprBody (s : String) : List Char :=
  (s.data.map (pyEscapeChar (pyReprQuote s))).flatten

/-- The escaped body of `repr(s)`, as a string. -/
def pyReprContent (s : String) : String := String.mk (pyReprBody s)

/-- Python `repr(s)` for a string `s`. -/
def pyRepr (s : String) : String :=
  String.mk (pyReprQuote s :: (pyReprBody s ++ [pyReprQuote s]))

/-- `repr(s)[1:-1]`: the repr of `s` with its first and last character (the
repr quotes) removed (line 776). -/
def reprStripped (s : String) : List Char :=
  (((pyRepr s).data).drop 1).dropLast

/-- The string path of `Mismatch.raw` (lines 775-779): take `repr(s)`,
strip the repr quotes (`s[1:-1]`), truncate to the first 15 characters plus
an ellipsis when longer than 15, and wrap in double quotes. -/
def rawOfStr (s : String) : String :=
  dquote.toString ++
    (if (reprStripped s).length > 15
     then String.mk ((reprStripped s).take 15) ++ "..."
     else String.mk (reprStripped s)) ++ dquote.toString

/-- `Mismatch.raw` (lines 765-779): get the raw representation of `s`,
truncating if too long.  A list is joined with newlines first; the `EOF`
sentinel renders as `EOF`; otherwise the repr-strip-truncate-quote path. -/
def Mismatch.raw : MVal → String
  | MVal.eofSentinel => "EOF"
  | MVal.str s => rawOfStr s
  | MVal.strList l => rawOfStr (String.intercalate "\n" l)

/-! ## A model of Python regular-expression search

`pexpect.spawn.expect(pattern)` compiles `pattern` as a Python regular
expression and searches the accumulated output for a match anywhere.
We model the fragment of the pattern language needed here: literal
characters, the dot wildcard, and the postfix `*`, `+`, `?` operators on a
single-character atom.  Patterns using other metacharacters are outside the
modeled fragment (`parseRe` returns `none` for them). -/

/-- Regular expressions. -/
inductive Regex
  | bot
  | eps
  | anyc
  | ch (c : Char)
  | seq (r1 r2 : Regex)
  | alt (r1 r2 : Regex)
  | star (r : Regex)
deriving DecidableEq, Repr

/-- Does `r` accept the empty word. -/
def nullable : Regex → Bool
  | Regex.bot => false
  | Regex.eps => true
  | Regex.anyc => false
  | Regex.ch _ => false
  | Regex.seq a b => nullable a && nullable b
  | Regex.alt a b => nullable a || nullable b
  | Regex.star _ => true

/-- Brzozowski derivative of `r` by character `c`. -/
def deriv : Regex → Char → Regex
  | Regex.bot, _ => Regex.bot
  | Regex.eps, _ => Regex.bot
  | Regex.anyc, _ => Regex.eps
  | Regex.ch c, d => if c = d then Regex.eps else Regex.bot
  | Regex.seq a b, c =>
    if nullable a then Regex.alt (Regex.seq (deriv a c) b) (deriv b c)
    else Regex.seq (deriv a c) b
  | Regex.alt a b, c => Regex.alt (deriv a c) (deriv b c)
  | Regex.star r, c => Regex.seq (deriv r c) (Regex.star r)

/-- Does `r` accept some initial segment of `s`. -/
def matchesInit : Regex → List Char → Bool
  | r, [] => nullable r
  | r, c :: rest => nullable r || matchesInit (deriv r c) rest

/-- All suffixes of a list, longest first. -/
def suffixes : List Char → List (List Char)
  | [] => [[]]
  | c :: rest => (c :: rest) :: suffixes rest

/-- Python `re.search` semantics: `r` matches somewhere inside `s`. -/
def reSearch (r : Regex) (s : List Char) : Bool :=
  (suffixes s).any (fun t => matchesInit r t)

/-- A single-character regex atom.  Metacharacters outside the modeled
fragment make the pattern unparseable. -/
def reAtom (c : Char) : Option Regex :=
  if c = Char.ofNat 46 then some Regex.anyc
  else if c = Char.ofNat 42 ∨ c = Char.ofNat 43 ∨ c = Char.ofNat 63 ∨
          c = Char.ofNat 94 ∨ c = Char.ofNat 36 ∨ c = Char.ofNat 92 ∨
          c = Char.ofNat 91 ∨ c = Char.ofNat 93 ∨ c = Char.ofNat 40 ∨
          c = Char.ofNat 41 ∨ c = Char.ofNat 123 ∨ c = Char.ofNat 125 ∨
          c = Char.ofNat 124 then none
  else some (Regex.ch c)

/-- Parse a pattern into a list of atoms, applying the postfix operators
`*`, `+`, `?` to the preceding atom. -/
def reAtoms : List Char → Option (List Regex)
  | [] => some []
  | c :: rest =>
    match reAtom c with
    | none => none
    | some b =>
      match rest with
      | [] => some [b]
      | op :: rest2 =>
        if op = Char.ofNat 42 then
          (reAtoms rest2).map (fun l => Regex.star b :: l)
        else if op = Char.ofNat 43 then
          (reAtoms rest2).map (fun l => Regex.seq b (Regex.star b) :: l)
        else if op = Char.ofNat 63 then
          (reAtoms rest2).map (fun l => Regex.alt b Regex.eps :: l)
        else
          (reAtoms (op :: rest2)).map (fun l => b :: l)

/-- Parse a Python pattern string into the modeled regex fragment. -/
def parseRe (s : String) : Option Regex :=
  (reAtoms s.data).map (fun l => l.foldr Regex.seq Regex.eps)

/-- Exact substring containment (the semantics of
`pexpect.spawn.expect_exact`). -/
def substrSearch (needle hay : String) : Bool :=
  (suffixes hay.data).any (fun t => needle.data.isPrefixOf t)

/-! ## Child.stdout (lines 502-543) -/

/-- The `output` argument of `Child.stdout` when an expectation is given:
a `File` object (whose `read()` succeeds, so `expect_exact` is chosen at
line 515), a plain string (whose `read()` raises `AttributeError`, so
`expect` is chosen at line 513), or the pexpect `EOF` sentinel (also without
`read()`; compared equal to `EOF` at line 517).  The `output=None` overload
instead delegates to `wait` (line 506) and is not part of this model. -/
inductive StdoutArg
  | file (content : String)
  | str (s : String)
  | eofArg
deriving DecidableEq, Repr

/-- The value `str_output` holds when the expectation is evaluated
(lines 517-521): the string `EOF` for the end-of-output sentinel, otherwise
the given `str_output` argument, defaulting to the expectation text itself
(before the newline replacement of line 522). -/
def strOutputOf : StdoutArg → Option String → String
  | StdoutArg.eofArg, _ => "EOF"
  | StdoutArg.file c, so => so.getD c
  | StdoutArg.str s, so => so.getD s

/-- Which accumulated output text satisfies the expectation chosen by
`Child.stdout` (lines 509-529): a `File` content is matched with
`expect_exact` (exact substring of the output), a plain string with `expect`
(Python regular-expression search), both after the `"\n"` to `"\r\n"`
replacement of line 522.  The `EOF` sentinel is matched against end of
stream, not against text, so it is outside this text-matching model. -/
def stdoutMatches (arg : StdoutArg) (available : String) : Option Bool :=
  match arg with
  | StdoutArg.file c => some (substrSearch (pyReplace c lfS crlfS) available)
  | StdoutArg.str s => (parseRe (pyReplace s lfS crlfS)).map (fun r => reSearch r available.data)
  | StdoutArg.eofArg => none

/-- The outcome of the `expect(...)` call at line 529, as observed by the
surrounding `try`: the expectation matched (with `child.before` holding the
text before the match, relevant only for the `EOF` expectation), pexpect
raised `EOF` (end of output, with the `before`/`buffer`/`after` attributes of
the child; `after` is `none` when it holds the `EOF` class), or pexpect
raised `TIMEOUT`. -/
inductive ExpectOutcome
  | matched (before : String)
  | eofRaised (before buffer : String) (after : Option String)
  | timeoutRaised
deriving DecidableEq, Repr

/-- `Child.stdout` (lines 502-543) on an expectation argument, as a function
of the externally-determined pexpect outcome:

* on `TIMEOUT` (lines 536-537), raise
  `Error("timed out while waiting for " + Mismatch.raw(str_output))`;
* on `EOF` (lines 531-535), collect `before + buffer` plus `after` when it is
  not the `EOF` class, and raise `Error(Mismatch(str_output, collected))`
  with `"\r\n"` normalized back to `"\n"`;
* on a match, when the expectation was the `EOF` sentinel and `child.before`
  is non-empty (lines 540-541), raise `Error(Mismatch(EOF, before))`, again
  normalized; otherwise succeed. -/
def stdoutModel (arg : StdoutArg) (strOut : Option String)
    (oc : ExpectOutcome) : Except ErrorV Unit :=
  let so := strOutputOf arg strOut
  match oc with
  | ExpectOutcome.timeoutRaised =>
      Except.error (mkError (Rationale.msg
        ("timed out while waiting for " ++ Mismatch.raw (MVal.str so))))
  | ExpectOutcome.eofRaised before buffer after =>
      let result := before ++ buffer ++ after.getD ""
      Except.error (mkError (Rationale.mm
        ⟨MVal.str so, MVal.str (pyReplace result crlfS lfS)⟩))
  | ExpectOutcome.matched before =>
      match arg with
      | StdoutArg.eofArg =>
          if before ≠ "" then
            Except.error (mkError (Rationale.mm
              ⟨MVal.eofSentinel, MVal.str (pyReplace before crlfS lfS)⟩))
          else Except.ok ()
      | _ => Except.ok ()

/-! ## Checks._check_valgrind (lines 714-749) -/

/-- One `frame` element of a valgrind error record: an optional originating
object path and optional source file and line (text content of the child
elements, when present). -/
structure VFrame where
  obj : Option String
  file : Option String
  line : Option String
deriving DecidableEq, Repr

/-- One `error` record of the valgrind XML report: the error `kind`, the
generic description (`what`), the leak description (`xwhat/text`), and the
stack frames.  The source reads the description element text directly
(line 728), so reports with a missing description element are outside the
modeled domain. -/
structure VError where
  kind : String
  what : String
  xwhat : String
  frames : List VFrame
deriving DecidableEq, Repr

/-- Python `posixpath.dirname` helper: the prefix of the character list up to
and including the last slash, or `none` when there is no slash. -/
def takeToLastSlash : List Char → Option (List Char)
  | [] => none
  | c :: rest =>
    match takeToLastSlash rest with
    | some t => some (c :: t)
    | none => if c = Char.ofNat 47 then some [c] else none

/-- Remove trailing slashes. -/
def rstripSlash (l : List Char) : List Char :=
  (l.reverse.dropWhile (fun c => c = Char.ofNat 47)).reverse

/-- Python `os.path.dirname` (posix): everything up to the last slash, with
trailing slashes stripped unless the head is all slashes; the empty string
when there is no slash. -/
def dirname (p : String) : String :=
  match takeToLastSlash p.data with
  | none => ""
  | some head =>
    if head.all (fun c => c = Char.ofNat 47) then String.mk head
    else String.mk (rstripSlash head)

/-- The message built for one valgrind error record (lines 724-742):
the leak description for `Leak_`-prefixed kinds and the generic description
otherwise, prefixed with a tab, and suffixed with the file/line of the first
stack frame whose object lives in the check directory, when both are
present. -/
def renderValgrindError (dir : String) (e : VError) : String :=
  let what := if ("Leak_".data.isPrefixOf e.kind.data) then e.xwhat else e.what
  let frameM := e.frames.find? (fun f =>
    match f.obj with
    | none => false
    | some o => dirname o == dir)
  let suffix :=
    match frameM with
    | none => ""
    | some f =>
      match f.file, f.line with
      | some fl, some ln => ": (file: " ++ fl ++ ", line: " ++ ln ++ ")"
      | _, _ => ""
  "\t" ++ what ++ suffix

/-- Insert a message unless an identical one was already reported
(lines 743-745): the `reported` set, with the log order of first
occurrences. -/
def insertIfNew (seen : List String) (m : String) : List String :=
  if m ∈ seen then seen else seen ++ [m]

/-- The deduplicated messages appended to the check log by
`_check_valgrind` (lines 722-745), in order of first occurrence. -/
def checkValgrindLog (dir : String) (errors : List VError) : List String :=
  errors.foldl (fun reported e => insertIfNew reported (renderValgrindError dir e)) []

/-- The error message raised when valgrind reported anything (line 749). -/
def valgrindFailMsg : String :=
  "valgrind tests failed; rerun with --log for more information."

/-- The outcome of `_check_valgrind` (lines 747-749): raise `Error` exactly
when the deduplicated report set is non-empty. -/
def checkValgrindResult (dir : String) (errors : List VError) : Except String Unit :=
  if checkValgrindLog dir errors = [] then Except.ok () else Except.error valgrindFailMsg

/-- A concrete valgrind report entry (a definitely-lost leak attributed to a
program inside the check directory), used by witnesses. -/
def vErrDemo : VError :=
  { kind := "Leak_DefinitelyLost", what := "g", xwhat := "40 bytes lost",
    frames := [{ obj := some "/tmp/x/prog", file := some "prog.c", line := some "7" }] }

/-! # Helper lemmas -/

/-- Shared skip-path lemma for the dependency gate (lines 427-430): when the
dependency is a non-empty string and its recorded verdict is not `PASS`, the
wrapper records `SKIP`, sets the frown rationale, runs no body, and makes no
directory copy. -/
theorem runCheck_skip (name d : String) (body : BodyOutcome) (st : RunState)
    (h1 : d ≠ "") (h2 : pyDictGet st.results d ≠ Checks.PASS) :
    runCheck name (some d) body st =
      Except.ok ({ st with results := pyDictSet st.results name Checks.SKIP },
        { name := name, result := Checks.SKIP,
          rationale := some (Rationale.msg frownRationale),
          helpers := none, bodyRan := false }) := by
  have ht : pyTruthyStr (some d) = true := by
    simp [pyTruthyStr, h1]
  unfold runCheck
  rw [if_pos]
  exact ⟨ht, h2⟩

/-- Folding `insertIfNew` preserves `Nodup`. -/
theorem foldl_insertIfNew_nodup (msgs : List String) :
    ∀ seen : List String, seen.Nodup → (msgs.foldl insertIfNew seen).Nodup := by
  induction msgs with
  | nil => intro seen h; exact h
  | cons m rest ih =>
    intro seen h
    simp only [List.foldl_cons]
    apply ih
    unfold insertIfNew
    by_cases hm : m ∈ seen
    · simpa [hm] using h
    · simp only [hm, if_false]
      simp [List.nodup_append, h, hm]

/-- Membership in a fold of `insertIfNew`. -/
theorem mem_foldl_insertIfNew (msgs : List String) :
    ∀ (seen : List String) (x : String),
      x ∈ msgs.foldl insertIfNew seen ↔ x ∈ seen ∨ x ∈ msgs := by
  induction msgs with
  | nil => intro seen x; simp
  | cons m rest ih =>
    intro seen x
    simp only [List.foldl_cons, ih]
    unfold insertIfNew
    by_cases hm : m ∈ seen
    · simp only [hm, if_true, List.mem_cons]
      constructor
      · rintro (h | h)
        · exact Or.inl h
        · exact Or.inr (Or.inr h)
      · rintro (h | h | h)
        · exact Or.inl h
        · exact Or.inl (h ▸ hm)
        · exact Or.inr h
    · simp only [hm, if_false, List.mem_append, List.mem_singleton, List.mem_cons]
      tauto

/-- The log built by `_check_valgrind` is the `insertIfNew` fold of the
rendered messages. -/
theorem checkValgrindLog_eq (dir : String) (errors : List VError) :
    checkValgrindLog dir errors =
      (errors.map (renderValgrindError dir)).foldl insertIfNew [] := by
  rw [List.foldl_map]
  rfl

/-- Applying `osEnvironUpdate` looks up the last binding in the update list,
falling back to the prior environment. -/
theorem osEnvironUpdate_apply (e : List (String × String)) :
    ∀ (environ : String → Option String) (k : String),
      osEnvironUpdate environ e k = (envLookupLast e k).elim (environ k) some := by
  induction e with
  | nil => intro environ k; rfl
  | cons kv tl ih =>
    intro environ k
    show osEnvironUpdate (fun k2 => if kv.1 = k2 then some kv.2 else environ k2) tl k = _
    rw [ih]
    cases h : envLookupLast tl k with
    | some v => simp [envLookupLast, h]
    | none =>
      by_cases hk : kv.1 = k
      · simp [envLookupLast, h, hk]
      · simp [envLookupLast, h, hk]

/-- The repr-stripping step recovers exactly the escaped repr body. -/
theorem reprStripped_eq (s : String) : reprStripped s = pyReprBody s := by
  show (pyReprBody s ++ [pyReprQuote s]).dropLast = pyReprBody s
  simp

/-! # Claim theorems -/

/-- Claim C1: for every declared check with a dependency, if the recorded
verdict of the dependency is not `PASS`, then the verdict of the check is set
to `SKIP`, its body is never executed (`bodyRan = false`), and no copy of the
dependency directory is made (the `copies` list is unchanged). -/
theorem check_dep_not_pass_skips (st : RunState) (name d : String)
    (body : BodyOutcome) (h1 : d ≠ "")
    (h2 : pyDictGet st.results d ≠ Checks.PASS) :
    runCheck name (some d) body st =
      Except.ok ({ st with results := pyDictSet st.results name Checks.SKIP },
        { name := name, result := Checks.SKIP,
          rationale := some (Rationale.msg frownRationale),
          helpers := none, bodyRan := false }) :=
  runCheck_skip name d body st h1 h2

/-- Witness for C1: a check whose dependency is recorded `FAIL` ends up
`SKIP`, with no body run and no directory copy. -/
theorem check_dep_not_pass_skips_app :
    runCheck "b" (some "dep") BodyOutcome.ok ⟨[("dep", Checks.FAIL)], []⟩ =
      Except.ok (⟨[("dep", Checks.FAIL), ("b", Checks.SKIP)], []⟩,
        ⟨"b", Checks.SKIP, some (Rationale.msg frownRationale), none, false⟩) := by
  rw [check_dep_not_pass_skips ⟨[("dep", Checks.FAIL)], []⟩ "b" "dep"
    BodyOutcome.ok (by decide) (by decide)]
  rfl

/-- Claim C2: `Child.stdout` matches a `File` expectation (literal file
content) by exact sequence only, and a plain string expectation by pattern
semantics; the same text containing a pattern metacharacter therefore gives
different outcomes: the pattern `aa+` matches output `xaaay` while the
literal `aa+` does not, and the literal `aa+` does match output that
contains the exact sequence `aa+`. -/
theorem stdout_literal_vs_regex_divergence :
    stdoutMatches (StdoutArg.str "aa+") "xaaay" = some true ∧
    stdoutMatches (StdoutArg.file "aa+") "xaaay" = some false ∧
    stdoutMatches (StdoutArg.file "aa+") "xaa+y" = some true :=
  ⟨rfl, rfl, rfl⟩

/-- Claim C3: the three failure modes of `Child.stdout` are distinct: on
pexpect `TIMEOUT` it raises the timed-out message with the rendered
expectation; on pexpect `EOF` it raises an `Error` carrying a `Mismatch` of
the expectation against the output captured so far; and when the `EOF`
sentinel was the expectation but the process produced output first it raises
an `Error` carrying a `Mismatch` of the end-of-output sentinel against that
output. -/
theorem stdout_failure_modes (arg : StdoutArg) (strOut : Option String)
    (b buf : String) (after : Option String) :
    stdoutModel arg strOut ExpectOutcome.timeoutRaised =
      Except.error ⟨some (Rationale.msg ("timed out while waiting for " ++
        Mismatch.raw (MVal.str (strOutputOf arg strOut)))), none, Checks.FAIL⟩ ∧
    stdoutModel arg strOut (ExpectOutcome.eofRaised b buf after) =
      Except.error ⟨some (Rationale.mm ⟨MVal.str (strOutputOf arg strOut),
        MVal.str (pyReplace (b ++ buf ++ after.getD "") crlfS lfS)⟩),
        none, Checks.FAIL⟩ ∧
    stdoutModel StdoutArg.eofArg strOut (ExpectOutcome.matched b) =
      (if b ≠ "" then
        Except.error ⟨some (Rationale.mm ⟨MVal.eofSentinel,
          MVal.str (pyReplace b crlfS lfS)⟩), none, Checks.FAIL⟩
       else Except.ok ()) :=
  ⟨rfl, rfl, rfl⟩

/-- Claim C4: `SKIP` propagates transitively: in a run where check `A` (no
dependency) fails, `B` depends on `A`, and `C` depends on `B`, the recorded
verdicts are `A = FAIL`, `B = SKIP`, `C = SKIP`, the bodies of `B` and `C`
never run, and `C` is skipped because the recorded verdict of `B` is `SKIP`,
not `PASS`. -/
theorem skip_propagates_transitively :
    (runChecks [("A", none, BodyOutcome.err (mkError (Rationale.msg "boom"))),
        ("B", some "A", BodyOutcome.ok),
        ("C", some "B", BodyOutcome.ok)] ⟨[], []⟩).map
      (fun p => p.2.map (fun r => (r.name, r.result, r.bodyRan))) =
      Except.ok [("A", Checks.FAIL, true), ("B", Checks.SKIP, false),
        ("C", Checks.SKIP, false)] ∧
    (runChecks [("A", none, BodyOutcome.err (mkError (Rationale.msg "boom"))),
        ("B", some "A", BodyOutcome.ok),
        ("C", some "B", BodyOutcome.ok)] ⟨[], []⟩).map
      (fun p => pyDictGet p.1.results "B") = Except.ok Checks.SKIP :=
  ⟨rfl, rfl⟩

/-- Claim C5: `_check_valgrind` deduplicates report entries by their final
rendered message: the log it builds has no duplicate, any rendered message of
the report occurs in it exactly once, and whenever the deduplicated set is
non-empty the check fails with the memory-check error. -/
theorem valgrind_dedup_and_fail (dir : String) (errors : List VError)
    (m : String) :
    (checkValgrindLog dir errors).Nodup ∧
    (m ∈ errors.map (renderValgrindError dir) →
      (checkValgrindLog dir errors).count m = 1) ∧
    (checkValgrindLog dir errors ≠ [] →
      checkValgrindResult dir errors = Except.error valgrindFailMsg) := by
  have hlog := checkValgrindLog_eq dir errors
  have hnd : (checkValgrindLog dir errors).Nodup := by
    rw [hlog]; exact foldl_insertIfNew_nodup _ [] List.nodup_nil
  refine ⟨hnd, ?_, ?_⟩
  · intro hm
    have hmem : m ∈ checkValgrindLog dir errors := by
      rw [hlog, mem_foldl_insertIfNew]
      exact Or.inr hm
    exact List.count_eq_one_of_mem hnd hmem
  · intro hne
    unfold checkValgrindResult
    rw [if_neg hne]

/-- Witness for C5: a report with two identical leak entries yields exactly
one logged finding and a failing memory check. -/
theorem valgrind_dedup_and_fail_app :
    (checkValgrindLog "/tmp/x" [vErrDemo, vErrDemo]).count
      "\t40 bytes lost: (file: prog.c, line: 7)" = 1 ∧
    checkValgrindResult "/tmp/x" [vErrDemo, vErrDemo] =
      Except.error valgrindFailMsg :=
  ⟨(valgrind_dedup_and_fail "/tmp/x" [vErrDemo, vErrDemo]
      "\t40 bytes lost: (file: prog.c, line: 7)").2.1 (by decide),
   (valgrind_dedup_and_fail "/tmp/x" [vErrDemo, vErrDemo]
      "\t40 bytes lost: (file: prog.c, line: 7)").2.2 (by decide)⟩

/-- Counterexample for C6: the claim says a duplicate check name is rejected
with an `InternalError` at registration time; in the source, registration
(line 420) is an unconditional append to `config.test_cases`, so declaring
`foo` twice simply registers it twice and nothing is rejected. -/
theorem declare_duplicate_cex :
    declareCheck (declareCheck [] "foo") "foo" = ["foo", "foo"] ∧
    (declareCheck ["foo"] "foo").count "foo" = 2 :=
  ⟨rfl, rfl⟩

/-- Claim C6 (amended): declaring a check whose name is already registered
is not rejected; the registration appends the name again, so the name then
occurs at least twice in the ordered test-case list. -/
theorem declare_duplicate_appends (test_cases : List String) (name : String)
    (h : name ∈ test_cases) :
    2 ≤ (declareCheck test_cases name).count name := by
  unfold declareCheck
  rw [List.count_append]
  have h1 : 1 ≤ test_cases.count name := List.one_le_count_iff.mpr h
  have h2 : List.count name [name] = 1 := by simp
  omega

/-- Witness for C6 (amended): registering `foo` on top of a list already
containing `foo` leaves it counted twice. -/
theorem declare_duplicate_appends_app :
    2 ≤ (declareCheck ["foo"] "foo").count "foo" :=
  declare_duplicate_appends ["foo"] "foo" (by decide)

/-- Counterexample for C7: on the skip path the recorded rationale is the
frown string of line 429, not the string `upstream check did not pass`. -/
theorem skip_rationale_cex :
    (runCheck "B" (some "A") BodyOutcome.ok ⟨[("A", Checks.FAIL)], []⟩).map
      (fun p => p.2.rationale) =
      Except.ok (some (Rationale.msg frownRationale)) ∧
    (frownRationale == "upstream check did not pass") = false :=
  ⟨rfl, rfl⟩

/-- Claim C7 (amended): when a check is skipped because the recorded verdict
of its dependency is not `PASS`, the rationale recorded for that check is
the exact string of line 429 (`frownRationale`, which spells: can, a single
quote, then: t check until a frown turns upside down). -/
theorem skip_rationale_frown (st : RunState) (name d : String)
    (body : BodyOutcome) (h1 : d ≠ "")
    (h2 : pyDictGet st.results d ≠ Checks.PASS) :
    (runCheck name (some d) body st).map (fun p => p.2.rationale) =
      Except.ok (some (Rationale.msg frownRationale)) := by
  rw [runCheck_skip name d body st h1 h2]
  rfl

/-- Witness for C7 (amended): concrete skip with the frown rationale. -/
theorem skip_rationale_frown_app :
    (runCheck "b2" (some "dep") BodyOutcome.ok ⟨[("dep", Checks.FAIL)], []⟩).map
      (fun p => p.2.rationale) =
      Except.ok (some (Rationale.msg frownRationale)) :=
  skip_rationale_frown ⟨[("dep", Checks.FAIL)], []⟩ "b2" "dep" BodyOutcome.ok
    (by decide) (by decide)

/-- Claim C8 counterexample: the claim says strings at or under the
threshold render unchanged; a string of 8 newline characters is under the
threshold of 15 yet renders as escaped, truncated text with the ellipsis
marker, which differs from the string itself (the threshold applies to the
repr-escaped text, whose length here is 16). -/
theorem raw_short_string_changed_cex :
    (String.mk (List.replicate 8 (Char.ofNat 10))).data.length = 8 ∧
    Mismatch.raw (MVal.str (String.mk (List.replicate 8 (Char.ofNat 10)))) =
      "\"\\n\\n\\n\\n\\n\\n\\n\\...\"" ∧
    (Mismatch.raw (MVal.str (String.mk (List.replicate 8 (Char.ofNat 10)))) ==
      String.mk (List.replicate 8 (Char.ofNat 10))) = false :=
  ⟨rfl, rfl, rfl⟩

/-- Claim C8 (amended): `Mismatch.raw` renders a string by escaping it (as
Python repr does), and the truncation threshold of 15 applies to the escaped
text: when the escaped text is longer than 15 characters the rendering is its
exact 15-character prefix plus the ellipsis marker, otherwise the escaped
text unchanged, in both cases wrapped in double quotes. -/
theorem raw_truncates_escaped (s : String) :
    Mismatch.raw (MVal.str s) =
      dquote.toString ++
        (if (pyReprContent s).data.length > 15
         then String.mk ((pyReprContent s).data.take 15) ++ "..."
         else pyReprContent s) ++ dquote.toString := by
  show rawOfStr s = _
  unfold rawOfStr
  rw [reprStripped_eq]
  rfl

/-- Claim C9: a check whose declared dependency has no recorded verdict at
all is gated exactly like a failed dependency: the missing lookup yields the
same value as `SKIP` (verdicts are `PASS = True`, `FAIL = False`,
`SKIP = None`, and `dict.get` of a missing key is `None`), so the check is
`SKIP`, its body never runs, and no directory copy is made. -/
theorem check_missing_dep_skips (st : RunState) (name d : String)
    (body : BodyOutcome) (h1 : d ≠ "")
    (h2 : st.results.find? (fun p => p.1 == d) = none) :
    pyDictGet st.results d = Checks.SKIP ∧
    runCheck name (some d) body st =
      Except.ok ({ st with results := pyDictSet st.results name Checks.SKIP },
        { name := name, result := Checks.SKIP,
          rationale := some (Rationale.msg frownRationale),
          helpers := none, bodyRan := false }) := by
  have hget : pyDictGet st.results d = Checks.SKIP := by
    unfold pyDictGet
    rw [h2]
    rfl
  refine ⟨hget, runCheck_skip name d body st h1 ?_⟩
  rw [hget]
  decide

/-- Witness for C9: a dependency name that was never recorded gates the
check into `SKIP` without running its body. -/
theorem check_missing_dep_skips_app :
    pyDictGet ([] : List (String × Option Bool)) "ghost" = Checks.SKIP ∧
    runCheck "b3" (some "ghost") BodyOutcome.ok ⟨[], []⟩ =
      Except.ok (⟨[("b3", Checks.SKIP)], []⟩,
        ⟨"b3", Checks.SKIP, some (Rationale.msg frownRationale), none, false⟩) := by
  have h := check_missing_dep_skips ⟨[], []⟩ "b3" "ghost" BodyOutcome.ok
    (by decide) (by decide)
  exact ⟨h.1, h.2.trans (by rfl)⟩

/-- Claim C10: `Checks.spawn(cmd, env)` with a non-empty `env` permanently
writes the entries of `env` into the process-global environment (they remain
visible across later spawns), while the environment value actually passed to
the spawned child is `None`, because `dict.update` mutates in place and
returns `None`. -/
theorem spawn_env_global_mutation (environ : String → Option String)
    (e e2 : List (String × String)) :
    (spawnEnvEffect environ (some e)).2 = none ∧
    (∀ k v, envLookupLast e k = some v →
      (spawnEnvEffect environ (some e)).1 k = some v) ∧
    (∀ k, envLookupLast e k = none →
      (spawnEnvEffect environ (some e)).1 k = environ k) ∧
    (∀ k v, envLookupLast e k = some v → envLookupLast e2 k = none →
      (spawnEnvEffect ((spawnEnvEffect environ (some e)).1) (some e2)).1 k =
        some v) := by
  refine ⟨rfl, ?_, ?_, ?_⟩
  · intro k v h
    show osEnvironUpdate environ e k = some v
    rw [osEnvironUpdate_apply, h]
    rfl
  · intro k h
    show osEnvironUpdate environ e k = environ k
    rw [osEnvironUpdate_apply, h]
    rfl
  · intro k v h h2
    show osEnvironUpdate (osEnvironUpdate environ e) e2 k = some v
    rw [osEnvironUpdate_apply, h2]
    show osEnvironUpdate environ e k = some v
    rw [osEnvironUpdate_apply, h]
    rfl

/-- Witness for C10: spawning with `env = [("K", "V")]` passes `None` to the
child, writes `K = V` into the global environment, and a later spawn still
sees it. -/
theorem spawn_env_global_mutation_app :
    (spawnEnvEffect (fun _ => none) (some [("K", "V")])).2 = none ∧
    (spawnEnvEffect (fun _ => none) (some [("K", "V")])).1 "K" = some "V" ∧
    (spawnEnvEffect ((spawnEnvEffect (fun _ => none) (some [("K", "V")])).1)
        (some [])).1 "K" = some "V" :=
  ⟨(spawn_env_global_mutation (fun _ => none) [("K", "V")] []).1,
   (spawn_env_global_mutation (fun _ => none) [("K", "V")] []).2.1 "K" "V"
     (by decide),
   (spawn_env_global_mutation (fun _ => none) [("K", "V")] []).2.2.2 "K" "V"
     (by decide) (by decide)⟩

end Check50
